import Mathlib

/-!
Verification of the warden-docker linux backend core against its
natural-language specification.

The Go sources under `linux_backend/` are shallowly embedded:

* `LinuxContainerPool` (`Setup`/`Create`/`Restore`/`Destroy`/`Prune`) is
  translated from `container_pool.go`, which is present in the repository.
* `LinuxBackend` (`Create`/`Destroy`/`Lookup`) is translated from
  `linux_backend.go`.
* `LinuxContainer` (snapshot/restore, `LimitMemory`, `Run` script assembly)
  is not present in the repository sources; only its test suite is.  Those
  definitions are modelled from the specification (and pinned against the
  behaviour the test suite asserts); each such definition carries a doc
  comment saying so.

External collaborators (command runner, UID/network/port pools, cgroups
manager) are abstracted as oracles, exactly as the repository's fakes do:
each oracle says what the collaborator returns for a given call, and the
world state records the calls made (executed commands, released/removed
resources, cgroup writes).  Go errors are opaque values threaded through
verbatim; they are modelled as `String`s, with `none`/`Except.ok` for a
nil error.
-/

/-- A child-process invocation handed to the `CommandRunner` collaborator
(`exec.Cmd` in the Go sources): path, argv, environment and stdin. -/
structure Cmd where
  path : String
  args : List String := []
  env : List String := []
  stdin : String := ""
deriving DecidableEq

/-- The `CommandRunner` collaborator, abstracted as an oracle: for each
command, `none` means the command exits 0 and `some e` means the runner
returns error `e`. -/
structure Runner where
  result : Cmd → Option String

/-- A /30 network as handed out by the network pool: its string (CIDR) form
and the host/container IP string forms (spec §3 "Network"). -/
structure Network where
  subnet : String
  hostIP : String
  containerIP : String
deriving DecidableEq

/-- `warden.MemoryLimits`. -/
structure MemoryLimits where
  limitInBytes : Nat
deriving DecidableEq

/-- `warden.CPULimits`. -/
structure CPULimits where
  limitInShares : Nat
deriving DecidableEq

/-- `warden.BandwidthLimits`. -/
structure BandwidthLimits where
  rateInBytesPerSecond : Nat
  burstRateInBytesPerSecond : Nat
deriving DecidableEq

/-- `warden.DiskLimits`. -/
structure DiskLimits where
  blockLimit : Nat := 0
  block : Nat := 0
  blockSoft : Nat := 0
  blockHard : Nat := 0
  inodeLimit : Nat := 0
  inode : Nat := 0
  inodeSoft : Nat := 0
  inodeHard : Nat := 0
  byteLimit : Nat := 0
  byte : Nat := 0
  byteSoft : Nat := 0
  byteHard : Nat := 0
deriving DecidableEq

/-- The container's four optional limit records (spec §3): each a value or
absent. -/
structure LimitsState where
  memory : Option MemoryLimits := none
  disk : Option DiskLimits := none
  bandwidth : Option BandwidthLimits := none
  cpu : Option CPULimits := none
deriving DecidableEq

/-- A recorded host-port/container-port mapping (`linux_backend.NetInSpec`). -/
structure NetInSpec where
  hostPort : Nat
  containerPort : Nat
deriving DecidableEq

/-- A recorded outbound allow rule (`linux_backend.NetOutSpec`). -/
structure NetOutSpec where
  network : String
  port : Nat
deriving DecidableEq

/-- `warden.BindMount` mode. -/
inductive BindMountMode where
  | ro
  | rw
deriving DecidableEq

/-- `warden.BindMount` origin. -/
inductive BindMountOrigin where
  | host
  | container
deriving DecidableEq

/-- `warden.BindMount`. -/
structure BindMount where
  srcPath : String
  dstPath : String
  mode : BindMountMode
  origin : BindMountOrigin := .host
deriving DecidableEq

/-- The container's resource triple (spec §3 "Resources"):
UID, network, ordered port list. -/
structure Resources where
  uid : Nat
  network : Network
  ports : List Nat
deriving DecidableEq

/-- The per-container state (spec §3 "Container").  `state` is a free
string (the sources use a string-typed `State`; the tests restore
arbitrary strings such as "some-restored-state"). -/
structure LinuxContainer where
  id : String
  handle : String
  containerPath : String
  cgroupsRoot : String
  properties : List (String × String)
  graceTime : Nat
  state : String
  events : List String
  resources : Resources
  limits : LimitsState
  netIns : List NetInSpec
  netOuts : List NetOutSpec
  processIDs : List Nat
  processIDCounter : Nat
  oomNotifierRunning : Bool
deriving DecidableEq

/-- `linux_backend.ResourcesSnapshot`. -/
structure ResourcesSnapshot where
  uid : Nat
  network : Network
  ports : List Nat
deriving DecidableEq

/-- `linux_backend.ContainerSnapshot` (spec §3): the serialisable record
of a container's externally observable state.  Processes are recorded by
ID only. -/
structure ContainerSnapshot where
  id : String
  handle : String
  graceTime : Nat
  state : String
  events : List String
  resources : ResourcesSnapshot
  limits : LimitsState
  netIns : List NetInSpec
  netOuts : List NetOutSpec
  processes : List Nat
  properties : List (String × String)
deriving DecidableEq

/-- `warden.ContainerSpec` (the parts the pool reads). -/
structure ContainerSpec where
  handle : String := ""
  graceTime : Nat := 0
  properties : List (String × String) := []
  bindMounts : List BindMount := []
deriving DecidableEq

/-- The observable world state threaded through every operation: the trace
of executed and background-started commands, what each resource pool was
asked to release or remove (as the repository's fake pools record it), the
ports acquired from the port pool, and the cgroup writes performed. -/
structure WState where
  executed : List Cmd := []
  started : List Cmd := []
  uidReleased : List Nat := []
  networkReleased : List String := []
  portsReleased : List Nat := []
  uidRemoved : List Nat := []
  networkRemoved : List String := []
  portsRemoved : List Nat := []
  portsAcquired : List Nat := []
  cgroupWrites : List (String × String × String) := []
deriving DecidableEq

/-- The `UIDPool` collaborator as an oracle: what `Acquire` returns, and
what `Remove(uid)` returns (`none` = success). -/
structure UIDPool where
  acquireResult : Except String Nat
  removeResult : Nat → Option String

/-- The `NetworkPool` collaborator as an oracle. -/
structure NetworkPool where
  acquireResult : Except String Network
  removeResult : Network → Option String

/-- The `PortPool` collaborator as an oracle; `acquireResult n` is the
result of the (n+1)-th acquisition. -/
structure PortPool where
  acquireResult : Nat → Except String Nat
  removeResult : Nat → Option String

/-- The `CgroupsManager` collaborator as an oracle: the result of
`Set(subsystem, name, value)` may depend on the writes already performed
(the fake in the tests counts prior writes of the same name). -/
structure CgroupsManager where
  setResult : List (String × String × String) → String → String → String → Option String

/-- The bundle of collaborators an operation runs against. -/
structure Deps where
  uidPool : UIDPool
  networkPool : NetworkPool
  portPool : PortPool
  runner : Runner
  cgroups : CgroupsManager

/-- Run one command through the runner, recording it in the trace. -/
def runCmd (r : Runner) (st : WState) (c : Cmd) : Option String × WState :=
  (r.result c, { st with executed := st.executed ++ [c] })

/-- Run commands in sequence, stopping at the first failure. -/
def runCmds (r : Runner) : List Cmd → WState → Option String × WState
  | [], st => (none, st)
  | c :: cs, st =>
    match runCmd r st c with
    | (some e, st') => (some e, st')
    | (none, st') => runCmds r cs st'

def WState.releaseUID (st : WState) (uid : Nat) : WState :=
  { st with uidReleased := st.uidReleased ++ [uid] }

def WState.releaseNetwork (st : WState) (n : Network) : WState :=
  { st with networkReleased := st.networkReleased ++ [n.subnet] }

def WState.releasePort (st : WState) (port : Nat) : WState :=
  { st with portsReleased := st.portsReleased ++ [port] }

/-- Release a list of ports in order (the `for _, port := range ports`
release loops in `container_pool.go`). -/
def WState.releasePorts (st : WState) (ports : List Nat) : WState :=
  ports.foldl (fun st port => st.releasePort port) st

def WState.removeUID (st : WState) (uid : Nat) : WState :=
  { st with uidRemoved := st.uidRemoved ++ [uid] }

def WState.removeNetwork (st : WState) (n : Network) : WState :=
  { st with networkRemoved := st.networkRemoved ++ [n.subnet] }

def WState.removePort (st : WState) (port : Nat) : WState :=
  { st with portsRemoved := st.portsRemoved ++ [port] }

/-- The canonical PATH environment entry used by the pool's scripts. -/
def pathEnv : String :=
  "PATH=/usr/local/sbin:/usr/local/bin:/usr/sbin:/usr/bin:/sbin:/bin"

/-- `path.Join` for the base/name shapes the pool uses. -/
def pathJoin (a b : String) : String := a ++ "/" ++ b

/-- The constructor `linux_backend.NewLinuxContainer` as the pool invokes
it: a fresh container is `born`, with no events, no limits, no recorded
network rules and no processes (spec §3 invariants; the pool passes a
cgroups manager rooted at `/tmp/warden/cgroup`). -/
def NewLinuxContainer (id handle containerPath : String)
    (properties : List (String × String)) (graceTime : Nat)
    (resources : Resources) : LinuxContainer :=
  { id := id
    handle := handle
    containerPath := containerPath
    cgroupsRoot := "/tmp/warden/cgroup"
    properties := properties
    graceTime := graceTime
    state := "born"
    events := []
    resources := resources
    limits := {}
    netIns := []
    netOuts := []
    processIDs := []
    processIDCounter := 0
    oomNotifierRunning := false }

/-- `LinuxContainerPool`'s configuration fields (`container_pool.go`). -/
structure LinuxContainerPool where
  binPath : String
  depotPath : String
  rootFSPath : String
  denyNetworks : List String := []
  allowNetworks : List String := []
deriving DecidableEq

/-- The `create.sh` invocation built by `LinuxContainerPool.Create`. -/
def createScriptCmd (p : LinuxContainerPool) (id : String) (uid : Nat)
    (network : Network) : Cmd :=
  { path := pathJoin p.binPath "create.sh"
    args := [pathJoin p.depotPath id]
    env :=
      [ "id=" ++ id
      , "rootfs_path=" ++ p.rootFSPath
      , "user_uid=" ++ toString uid
      , "network_host_ip=" ++ network.hostIP
      , "network_container_ip=" ++ network.containerIP
      , pathEnv ] }

/-- The `destroy.sh` invocation built by `LinuxContainerPool.destroy`. -/
def destroyScriptCmd (p : LinuxContainerPool) (id : String) : Cmd :=
  { path := pathJoin p.binPath "destroy.sh"
    args := [pathJoin p.depotPath id] }

/-- The `ls <depotPath>` invocation built by `LinuxContainerPool.Prune`. -/
def lsCmd (p : LinuxContainerPool) : Cmd :=
  { path := "ls", args := [p.depotPath] }

/-- The source path a bind mount is rewritten to when its origin is the
container (`writeBindMounts` in `container_pool.go`). -/
def bindMountSrc (containerPath : String) (bm : BindMount) : String :=
  match bm.origin with
  | .container => containerPath ++ "/tmp/rootfs" ++ bm.srcPath
  | .host => bm.srcPath

/-- The four `bash -c "echo ... >> hook"` commands `writeBindMounts`
appends for one bind mount. -/
def bindMountCmds (containerPath : String) (bm : BindMount) : List Cmd :=
  let hook := containerPath ++ "/lib/hook-child-before-pivot.sh"
  let dstMount := containerPath ++ "/mnt" ++ bm.dstPath
  let srcPath := bindMountSrc containerPath bm
  let mode := match bm.mode with | .ro => "ro" | .rw => "rw"
  [ { path := "bash", args := ["-c", "echo >> " ++ hook] }
  , { path := "bash", args := ["-c", "echo mkdir -p " ++ dstMount ++ " >> " ++ hook] }
  , { path := "bash"
      args := ["-c", "echo mount -n --bind " ++ srcPath ++ " " ++ dstMount ++ " >> " ++ hook] }
  , { path := "bash"
      args := ["-c", "echo mount -n --bind -o remount," ++ mode ++ " " ++ srcPath ++ " "
        ++ dstMount ++ " >> " ++ hook] } ]

/-- `LinuxContainerPool.writeBindMounts`: append the four hook lines per
bind mount, stopping at the first failing command. -/
def WriteBindMounts (r : Runner) (containerPath : String) :
    List BindMount → WState → Option String × WState
  | [], st => (none, st)
  | bm :: rest, st =>
    match runCmds r (bindMountCmds containerPath bm) st with
    | (some e, st') => (some e, st')
    | (none, st') => WriteBindMounts r containerPath rest st'

/-- `LinuxContainerPool.Create` (translated from `container_pool.go`).
The container ID drawn from the ID channel is passed as `id`.  Steps:
acquire UID (fail: return); acquire network (fail: release UID, return);
construct the container; run `create.sh` (fail: release UID then network,
return); write bind-mount hook lines (fail: return with no compensation). -/
def LinuxContainerPool.Create (p : LinuxContainerPool) (d : Deps) (id : String)
    (spec : ContainerSpec) (st : WState) : Except String LinuxContainer × WState :=
  match d.uidPool.acquireResult with
  | .error e => (.error e, st)
  | .ok uid =>
    match d.networkPool.acquireResult with
    | .error e => (.error e, st.releaseUID uid)
    | .ok network =>
      let containerPath := pathJoin p.depotPath id
      let handle := if spec.handle = "" then id else spec.handle
      let container := NewLinuxContainer id handle containerPath
        spec.properties spec.graceTime ⟨uid, network, []⟩
      match runCmd d.runner st (createScriptCmd p id uid network) with
      | (some e, st') => (.error e, (st'.releaseUID uid).releaseNetwork network)
      | (none, st') =>
        match WriteBindMounts d.runner containerPath spec.bindMounts st' with
        | (some e, st'') => (.error e, st'')
        | (none, st'') => (.ok container, st'')

/-- `LinuxContainerPool.destroy` (lowercase helper in the source): run
`destroy.sh` for an ID. -/
def LinuxContainerPool.destroyScript (p : LinuxContainerPool) (d : Deps)
    (id : String) (st : WState) : Option String × WState :=
  runCmd d.runner st (destroyScriptCmd p id)

/-- `LinuxContainerPool.Destroy` (translated from `container_pool.go`):
run `destroy.sh`; on failure return the error; on success release every
port, then the UID, then the network. -/
def LinuxContainerPool.Destroy (p : LinuxContainerPool) (d : Deps)
    (c : LinuxContainer) (st : WState) : Option String × WState :=
  match p.destroyScript d c.id st with
  | (some e, st') => (some e, st')
  | (none, st') =>
    let st' := st'.releasePorts c.resources.ports
    let st' := st'.releaseUID c.resources.uid
    let st' := st'.releaseNetwork c.resources.network
    (none, st')

/-- The body of `LinuxContainerPool.Prune`'s loop over depot entries:
skip `tmp` and kept entries, destroy the rest, returning the first
destroy failure. -/
def pruneLoop (p : LinuxContainerPool) (d : Deps) (keep : List String) :
    List String → WState → Option String × WState
  | [], st => (none, st)
  | id :: rest, st =>
    if id = "tmp" then pruneLoop p d keep rest st
    else if keep.contains id then pruneLoop p d keep rest st
    else
      match p.destroyScript d id st with
      | (some e, st') => (some e, st')
      | (none, st') => pruneLoop p d keep rest st'

/-- `LinuxContainerPool.Prune` (translated from `container_pool.go`).
`lsOutput` stands for the result of running `ls <depotPath>`: an error, or
the newline-terminated entry names the command wrote to its stdout. -/
def LinuxContainerPool.Prune (p : LinuxContainerPool) (d : Deps)
    (lsOutput : Except String (List String)) (keep : List String)
    (st : WState) : Option String × WState :=
  let st := { st with executed := st.executed ++ [lsCmd p] }
  match lsOutput with
  | .error e => (some e, st)
  | .ok entries => pruneLoop p d keep entries st

/-- The cgroup subtree path for one subsystem
(`/tmp/warden/cgroup/<subsystem>/instance-<id>`, spec §6). -/
def subsystemPath (root subsystem id : String) : String :=
  root ++ "/" ++ subsystem ++ "/instance-" ++ id

/-- The OOM notifier invocation `<containerPath>/bin/oom <cgroupPath>`
(spec §4.3, §6). -/
def oomCmd (c : LinuxContainer) : Cmd :=
  { path := c.containerPath ++ "/bin/oom"
    args := [subsystemPath c.cgroupsRoot "memory" c.id] }

/-- Modelled from the spec: `LinuxContainer.startOomNotifier`
(`linux_container.go` is not among the repository sources).  Starts the
OOM notifier if not already running (spec §4.3 "LimitMemory"); a failure
to start it is returned. -/
def startOomNotifier (d : Deps) (c : LinuxContainer) (st : WState) :
    Option String × LinuxContainer × WState :=
  if c.oomNotifierRunning then (none, c, st)
  else
    let cmd := oomCmd c
    let st' := { st with started := st.started ++ [cmd] }
    match d.runner.result cmd with
    | some e => (some e, c, st')
    | none => (none, { c with oomNotifierRunning := true }, st')

/-- One `CgroupsManager.Set(subsystem, name, value)` call: consult the
oracle and record the write. -/
def cgroupSet (mgr : CgroupsManager) (st : WState)
    (subsystem name value : String) : Option String × WState :=
  (mgr.setResult st.cgroupWrites subsystem name value,
   { st with cgroupWrites := st.cgroupWrites ++ [(subsystem, name, value)] })

/-- Modelled from the spec: `LinuxContainer.LimitMemory`
(`linux_container.go` is not among the repository sources).  Starts the
OOM notifier if needed, then writes `memory.limit_in_bytes`, then
`memory.memsw.limit_in_bytes`, then `memory.limit_in_bytes` again; the
first two writes' failures are ignored (retry / kernel without swap
accounting, spec §4.3), the last write's failure fails the call.  On
success the limit is cached. -/
def LinuxContainer.LimitMemory (d : Deps) (c : LinuxContainer)
    (limits : MemoryLimits) (st : WState) : Except String LinuxContainer × WState :=
  match startOomNotifier d c st with
  | (some e, _, st') => (.error e, st')
  | (none, c', st') =>
    let limit := toString limits.limitInBytes
    let (_, st') := cgroupSet d.cgroups st' "memory" "memory.limit_in_bytes" limit
    let (_, st') := cgroupSet d.cgroups st' "memory" "memory.memsw.limit_in_bytes" limit
    match cgroupSet d.cgroups st' "memory" "memory.limit_in_bytes" limit with
    | (some e, st') => (.error e, st')
    | (none, st') =>
      (.ok { c' with limits := { c'.limits with memory := some limits } }, st')

/-- The `net.sh in` invocation (spec §6). -/
def netInCmd (containerPath : String) (hostPort containerPort : Nat) : Cmd :=
  { path := containerPath ++ "/net.sh"
    args := ["in"]
    env := ["HOST_PORT=" ++ toString hostPort, "CONTAINER_PORT=" ++ toString containerPort] }

/-- The `net.sh out` invocation (spec §6); a zero port is serialised as
the empty string. -/
def netOutCmd (containerPath : String) (network : String) (port : Nat) : Cmd :=
  { path := containerPath ++ "/net.sh"
    args := ["out"]
    env := ["NETWORK=" ++ network, "PORT=" ++ (if port = 0 then "" else toString port)] }

/-- The `net.sh setup` invocation (spec §4.3 "Restore"). -/
def netSetupCmd (containerPath : String) : Cmd :=
  { path := containerPath ++ "/net.sh", args := ["setup"] }

/-- Modelled from the spec: `LinuxContainer.NetIn`
(`linux_container.go` is not among the repository sources).  A zero host
port is acquired from the port pool and added to the container's port
list; a zero container port defaults to the host port; `net.sh in` is
invoked and the pair recorded for snapshotting (spec §4.3). -/
def LinuxContainer.NetIn (d : Deps) (c : LinuxContainer)
    (hostPort containerPort : Nat) (st : WState) :
    Except String (Nat × Nat × LinuxContainer) × WState :=
  match (if hostPort = 0 then d.portPool.acquireResult st.portsAcquired.length
         else .ok hostPort : Except String Nat) with
  | .error e => (.error e, st)
  | .ok hostPort' =>
    let st := if hostPort = 0 then
        { st with portsAcquired := st.portsAcquired ++ [hostPort'] } else st
    let c := if hostPort = 0 then
        { c with resources := { c.resources with ports := c.resources.ports ++ [hostPort'] } }
      else c
    let containerPort' := if containerPort = 0 then hostPort' else containerPort
    match runCmd d.runner st (netInCmd c.containerPath hostPort' containerPort') with
    | (some e, st') => (.error e, st')
    | (none, st') =>
      (.ok (hostPort', containerPort',
        { c with netIns := c.netIns ++ [⟨hostPort', containerPort'⟩] }), st')

/-- Modelled from the spec: `LinuxContainer.NetOut`
(`linux_container.go` is not among the repository sources).  Fails when
both network and port are empty; otherwise invokes `net.sh out` and
records the rule (spec §4.3). -/
def LinuxContainer.NetOut (d : Deps) (c : LinuxContainer)
    (network : String) (port : Nat) (st : WState) :
    Except String LinuxContainer × WState :=
  if network = "" ∧ port = 0 then (.error "invalid net-out rule", st)
  else
    match runCmd d.runner st (netOutCmd c.containerPath network port) with
    | (some e, st') => (.error e, st')
    | (none, st') =>
      (.ok { c with netOuts := c.netOuts ++ [⟨network, port⟩] }, st')

/-- Replay a list of recorded net-in rules via `NetIn`, stopping at the
first failure. -/
def netInLoop (d : Deps) : LinuxContainer → List NetInSpec → WState →
    Except String LinuxContainer × WState
  | c, [], st => (.ok c, st)
  | c, rule :: rest, st =>
    match LinuxContainer.NetIn d c rule.hostPort rule.containerPort st with
    | (.error e, st') => (.error e, st')
    | (.ok (_, _, c'), st') => netInLoop d c' rest st'

/-- Replay a list of recorded net-out rules via `NetOut`, stopping at the
first failure. -/
def netOutLoop (d : Deps) : LinuxContainer → List NetOutSpec → WState →
    Except String LinuxContainer × WState
  | c, [], st => (.ok c, st)
  | c, rule :: rest, st =>
    match LinuxContainer.NetOut d c rule.network rule.port st with
    | (.error e, st') => (.error e, st')
    | (.ok c', st') => netOutLoop d c' rest st'

/-- Reseed the process-ID counter from restored process IDs: for each
restored ID at or above the counter, the counter becomes that ID plus one
(spec §3: the counter stays strictly above every existing process ID,
starting at 0). -/
def reseedProcessIDCounter (ids : List Nat) : Nat :=
  ids.foldl (fun acc pid => if acc ≤ pid then pid + 1 else acc) 0

/-- Modelled from the spec: `LinuxContainer.Snapshot`
(`linux_container.go` is not among the repository sources).  Serialises
every field of spec §3 to the snapshot record; absent limits stay absent;
processes are recorded by ID only.  The JSON byte-stream layer (Go's
`encoding/json`, which decodes what it encoded) is modelled as the
identity on the record. -/
def LinuxContainer.Snapshot (c : LinuxContainer) : ContainerSnapshot :=
  { id := c.id
    handle := c.handle
    graceTime := c.graceTime
    state := c.state
    events := c.events
    resources := ⟨c.resources.uid, c.resources.network, c.resources.ports⟩
    limits := c.limits
    netIns := c.netIns
    netOuts := c.netOuts
    processes := c.processIDs
    properties := c.properties }

/-- Modelled from the spec: `LinuxContainer.Restore`
(`linux_container.go` is not among the repository sources).  Sets state,
events, properties and processes (reseeding the process-ID counter),
invokes `net.sh setup`, replays each recorded net-in and net-out rule,
and re-applies the memory limit when the snapshot has one; the first
script failure aborts without rollback (spec §4.3 "Restore(snapshot)"). -/
def LinuxContainer.RestoreFrom (d : Deps) (c : LinuxContainer)
    (snap : ContainerSnapshot) (st : WState) : Except String LinuxContainer × WState :=
  let c := { c with
    state := snap.state
    events := snap.events
    properties := snap.properties
    processIDs := snap.processes
    processIDCounter := reseedProcessIDCounter snap.processes }
  match runCmd d.runner st (netSetupCmd c.containerPath) with
  | (some e, st') => (.error e, st')
  | (none, st') =>
    match netInLoop d c snap.netIns st' with
    | (.error e, st') => (.error e, st')
    | (.ok c, st') =>
      match netOutLoop d c snap.netOuts st' with
      | (.error e, st') => (.error e, st')
      | (.ok c, st') =>
        match snap.limits.memory with
        | none => (.ok c, st')
        | some m => LinuxContainer.LimitMemory d c m st'

/-- The port-removal loop of `LinuxContainerPool.Restore`: remove each
snapshot port from the port pool in order, stopping at the first
failure. -/
def removePorts (d : Deps) : List Nat → WState → Option String × WState
  | [], st => (none, st)
  | port :: rest, st =>
    match d.portPool.removeResult port with
    | some e => (some e, st)
    | none => removePorts d rest (st.removePort port)

/-- `LinuxContainerPool.Restore` (translated from `container_pool.go`).
`decoded` stands for the result of JSON-decoding the snapshot stream.
Removes the snapshot's UID, network, then each port from their pools; on
a network-removal failure releases the UID; on a port-removal failure
releases the UID, the network, and every snapshot port; then constructs
the container and calls its `Restore`. -/
def LinuxContainerPool.Restore (p : LinuxContainerPool) (d : Deps)
    (decoded : Except String ContainerSnapshot) (st : WState) :
    Except String LinuxContainer × WState :=
  match decoded with
  | .error e => (.error e, st)
  | .ok snap =>
    let resources := snap.resources
    match d.uidPool.removeResult resources.uid with
    | some e => (.error e, st)
    | none =>
      let st := st.removeUID resources.uid
      match d.networkPool.removeResult resources.network with
      | some e => (.error e, st.releaseUID resources.uid)
      | none =>
        let st := st.removeNetwork resources.network
        match removePorts d resources.ports st with
        | (some e, st') =>
          let st' := st'.releaseUID resources.uid
          let st' := st'.releaseNetwork resources.network
          let st' := st'.releasePorts resources.ports
          (.error e, st')
        | (none, st') =>
          let containerPath := pathJoin p.depotPath snap.id
          let container := NewLinuxContainer snap.id snap.handle containerPath
            snap.properties snap.graceTime
            ⟨resources.uid, resources.network, resources.ports⟩
          LinuxContainer.RestoreFrom d container snap st'

/-- A `warden.EnvironmentVariable` of a process spec. -/
structure EnvironmentVariable where
  key : String
  value : String
deriving DecidableEq

/-- Modelled from the spec: the escaping `LinuxContainer.Run` applies to
an environment variable's value before placing it in double quotes
(`linux_container.go` is not among the repository sources; the behaviour
is pinned by the test "runs the script with escaped environment
variables", which asserts that embedded double quotes come out as
backslash-escaped while `$` and newline pass through unchanged). -/
def escapeEnvValue (v : String) : String :=
  ⟨v.data.flatMap fun ch => if ch = '"' then ['\\', '"'] else [ch]⟩

/-- One `export K="V"` line of the script handed to the supervisor. -/
def exportEnvLine (ev : EnvironmentVariable) : String :=
  "export " ++ ev.key ++ "=\"" ++ escapeEnvValue ev.value ++ "\"\n"

/-- Modelled from the spec: the stdin script `LinuxContainer.Run` hands to
`iomux-spawn` — one export line per environment variable, followed by the
user script (spec §4.3 "Process supervision and Run/Attach"). -/
def buildRunScript (envs : List EnvironmentVariable) (script : String) : String :=
  String.join (envs.map exportEnvLine) ++ script

/-- The script assembly exactly as the specification words it (§9): each
value is placed inside double quotes with no escaping of embedded
double-quote or dollar characters, i.e. passed through unchanged.  This
definition follows the spec's words, to be compared with
`buildRunScript`. -/
def buildRunScriptClaim (envs : List EnvironmentVariable) (script : String) : String :=
  String.join (envs.map fun ev =>
    "export " ++ ev.key ++ "=\"" ++ ev.value ++ "\"\n") ++ script

/-- The observable steps `LinuxBackend` takes against its collaborators. -/
inductive BackendEvent where
  | poolCreate
  | poolDestroy (id : String)
  | containerStart (id : String)
  | register (handle : String)
  | unregister (handle : String)
deriving DecidableEq

/-- `LinuxBackend`'s registry: the handle-indexed container map
(`linux_backend.go`), as an association list with map semantics (first
binding wins; insertion replaces). -/
structure LinuxBackend where
  containers : List (String × LinuxContainer)
deriving DecidableEq

/-- `LinuxBackend.Lookup` (translated from `linux_backend.go`): find the
container by handle or fail with `UnknownHandleError`. -/
def LinuxBackend.Lookup (b : LinuxBackend) (handle : String) :
    Except String LinuxContainer :=
  match b.containers.find? (fun q => q.1 == handle) with
  | none => .error ("unknown handle: " ++ handle)
  | some q => .ok q.2

/-- `LinuxBackend.Destroy` (translated from `linux_backend.go`): look up
the handle (unknown handles fail with `UnknownHandleError` and touch
nothing); delegate to `ContainerPool.Destroy` (`poolDestroyResult` is the
oracle for what it returns); on pool failure return the error with the
registry unchanged; on pool success delete the container's handle from
the registry.  The event list records the externally observable steps in
order. -/
def LinuxBackend.Destroy (poolDestroyResult : Option String)
    (b : LinuxBackend) (handle : String) :
    Except String Unit × LinuxBackend × List BackendEvent :=
  match b.containers.find? (fun q => q.1 == handle) with
  | none => (.error ("unknown handle: " ++ handle), b, [])
  | some q =>
    match poolDestroyResult with
    | some e => (.error e, b, [.poolDestroy q.2.id])
    | none =>
      (.ok (),
       ⟨b.containers.filter fun r => !(r.1 == q.2.handle)⟩,
       [.poolDestroy q.2.id, .unregister q.2.handle])

/-- `LinuxBackend.Create` (translated from `linux_backend.go`): delegate
to `ContainerPool.Create` (oracle `poolCreateResult`); on success call the
container's `Start` (oracle `startResult`); on start failure return the
error without registering and without any pool destroy; on success
register the container by handle. -/
def LinuxBackend.Create (poolCreateResult : Except String LinuxContainer)
    (startResult : Option String) (b : LinuxBackend) :
    Except String LinuxContainer × LinuxBackend × List BackendEvent :=
  match poolCreateResult with
  | .error e => (.error e, b, [.poolCreate])
  | .ok c =>
    match startResult with
    | some e => (.error e, b, [.poolCreate, .containerStart c.id])
    | none =>
      (.ok c,
       ⟨(c.handle, c) :: b.containers.filter fun r => !(r.1 == c.handle)⟩,
       [.poolCreate, .containerStart c.id, .register c.handle])

/-- `a` occurs (first) before some later occurrence of `b` in the list. -/
def occursBefore (a b : BackendEvent) : List BackendEvent → Bool
  | [] => false
  | x :: xs => if x = a then xs.contains b else occursBefore a b xs

instance {ε α : Type} [DecidableEq ε] [DecidableEq α] : DecidableEq (Except ε α) := fun a b =>
  match a, b with
  | .ok x, .ok y =>
    if h : x = y then .isTrue (h ▸ rfl) else .isFalse (fun hh => h (Except.ok.inj hh))
  | .ok _, .error _ => .isFalse (fun hh => Except.noConfusion hh)
  | .error _, .ok _ => .isFalse (fun hh => Except.noConfusion hh)
  | .error x, .error y =>
    if h : x = y then .isTrue (h ▸ rfl) else .isFalse (fun hh => h (Except.error.inj hh))

/-- Releasing a port list releases exactly those ports, in order, and
changes nothing else. -/
theorem releasePorts_eq (ports : List Nat) (st : WState) :
    st.releasePorts ports = { st with portsReleased := st.portsReleased ++ ports } := by
  induction ports generalizing st with
  | nil => simp [WState.releasePorts]
  | cons q rest ih =>
    simp only [WState.releasePorts, List.foldl_cons] at *
    rw [ih]
    simp [WState.releasePort]

/-- When every port removal succeeds, the removal loop succeeds and
records exactly the removed ports. -/
theorem removePorts_all_ok (d : Deps) (ports : List Nat) (st : WState)
    (h : ∀ q ∈ ports, d.portPool.removeResult q = none) :
    removePorts d ports st = (none, { st with portsRemoved := st.portsRemoved ++ ports }) := by
  induction ports generalizing st with
  | nil => simp [removePorts]
  | cons q rest ih =>
    have hq := h q (by simp)
    rw [removePorts, hq, ih _ (fun r hr => h r (by simp [hr]))]
    simp [WState.removePort]

/-- When the removals of `pre` succeed and the removal of `bad` fails,
the removal loop stops at `bad` with its error, having removed exactly
`pre`. -/
theorem removePorts_first_fail (d : Deps) (pre : List Nat) (bad : Nat)
    (post : List Nat) (st : WState) (e : String)
    (hpre : ∀ q ∈ pre, d.portPool.removeResult q = none)
    (hbad : d.portPool.removeResult bad = some e) :
    removePorts d (pre ++ bad :: post) st
      = (some e, { st with portsRemoved := st.portsRemoved ++ pre }) := by
  induction pre generalizing st with
  | nil => simp [removePorts, hbad]
  | cons q rest ih =>
    have hq := hpre q (by simp)
    rw [List.cons_append, removePorts, hq, ih _ (fun r hr => hpre r (by simp [hr]))]
    simp [WState.removePort]

/-- A `NetIn` call with nonzero ports acquires nothing, invokes `net.sh
in`, returns the pair unchanged and records it. -/
theorem NetIn_ok (d : Deps) (c : LinuxContainer) (hp cp : Nat) (st : WState)
    (hhp : hp ≠ 0) (hcp : cp ≠ 0) (hrun : ∀ cmd, d.runner.result cmd = none) :
    LinuxContainer.NetIn d c hp cp st
      = (.ok (hp, cp, { c with netIns := c.netIns ++ [⟨hp, cp⟩] }),
         { st with executed := st.executed ++ [netInCmd c.containerPath hp cp] }) := by
  simp [LinuxContainer.NetIn, hhp, hcp, runCmd, hrun]

/-- Replaying recorded net-in rules (all with nonzero ports) under a
successful runner appends exactly those rules. -/
theorem netInLoop_ok (d : Deps) (hrun : ∀ cmd, d.runner.result cmd = none) :
    ∀ (rules : List NetInSpec) (c : LinuxContainer) (st : WState),
    (∀ r ∈ rules, r.hostPort ≠ 0 ∧ r.containerPort ≠ 0) →
    ∃ st', netInLoop d c rules st = (.ok { c with netIns := c.netIns ++ rules }, st') := by
  intro rules
  induction rules with
  | nil => intro c st _; exact ⟨st, by simp [netInLoop]⟩
  | cons r rest ih =>
    intro c st h
    obtain ⟨h1, h2⟩ := h r (by simp)
    rw [netInLoop, NetIn_ok d c r.hostPort r.containerPort st h1 h2 hrun]
    obtain ⟨st', hst'⟩ := ih { c with netIns := c.netIns ++ [⟨r.hostPort, r.containerPort⟩] }
      { st with executed := st.executed ++ [netInCmd c.containerPath r.hostPort r.containerPort] }
      (fun q hq => h q (by simp [hq]))
    refine ⟨st', ?_⟩
    simpa using hst'

/-- A `NetOut` call whose rule is not empty-empty invokes `net.sh out`
and records the rule. -/
theorem NetOut_ok (d : Deps) (c : LinuxContainer) (n : String) (port : Nat)
    (st : WState) (hval : ¬(n = "" ∧ port = 0))
    (hrun : ∀ cmd, d.runner.result cmd = none) :
    LinuxContainer.NetOut d c n port st
      = (.ok { c with netOuts := c.netOuts ++ [⟨n, port⟩] },
         { st with executed := st.executed ++ [netOutCmd c.containerPath n port] }) := by
  simp [LinuxContainer.NetOut, hval, runCmd, hrun]

/-- Replaying recorded net-out rules under a successful runner appends
exactly those rules. -/
theorem netOutLoop_ok (d : Deps) (hrun : ∀ cmd, d.runner.result cmd = none) :
    ∀ (rules : List NetOutSpec) (c : LinuxContainer) (st : WState),
    (∀ r ∈ rules, ¬(r.network = "" ∧ r.port = 0)) →
    ∃ st', netOutLoop d c rules st = (.ok { c with netOuts := c.netOuts ++ rules }, st') := by
  intro rules
  induction rules with
  | nil => intro c st _; exact ⟨st, by simp [netOutLoop]⟩
  | cons r rest ih =>
    intro c st h
    rw [netOutLoop, NetOut_ok d c r.network r.port st (h r (by simp)) hrun]
    obtain ⟨st', hst'⟩ := ih { c with netOuts := c.netOuts ++ [⟨r.network, r.port⟩] }
      { st with executed := st.executed ++ [netOutCmd c.containerPath r.network r.port] }
      (fun q hq => h q (by simp [hq]))
    refine ⟨st', ?_⟩
    simpa using hst'

/-- `LimitMemory` on a container whose notifier is not yet running, with
a successful runner and cgroups manager: starts the notifier, performs
the writes and caches the limit. -/
theorem LimitMemory_ok (d : Deps) (c : LinuxContainer) (m : MemoryLimits)
    (st : WState) (hnot : c.oomNotifierRunning = false)
    (hrun : ∀ cmd, d.runner.result cmd = none)
    (hcg : ∀ t s n v, d.cgroups.setResult t s n v = none) :
    ∃ st', LinuxContainer.LimitMemory d c m st
      = (.ok { c with oomNotifierRunning := true,
                      limits := { c.limits with memory := some m } }, st') := by
  refine ⟨?_, ?_⟩
  case refine_1 => exact
    { { st with started := st.started ++ [oomCmd c] } with
      cgroupWrites := ({ st with started := st.started ++ [oomCmd c] }).cgroupWrites ++
        [("memory", "memory.limit_in_bytes", toString m.limitInBytes),
         ("memory", "memory.memsw.limit_in_bytes", toString m.limitInBytes),
         ("memory", "memory.limit_in_bytes", toString m.limitInBytes)] }
  simp [LinuxContainer.LimitMemory, startOomNotifier, hnot, hrun, cgroupSet, hcg]

/-- A depot entry is pruned iff it is neither the literal `tmp` nor a key
of the keep-set. -/
def prunable (keep : List String) (id : String) : Bool :=
  !(id == "tmp") && !(keep.contains id)

/-- When `destroy.sh` succeeds on every prunable entry, the prune loop
succeeds and executes exactly one `destroy.sh` per prunable entry, in
listing order. -/
theorem pruneLoop_all_ok (p : LinuxContainerPool) (d : Deps) (keep : List String) :
    ∀ (entries : List String) (st : WState),
    (∀ id ∈ entries, prunable keep id = true →
      d.runner.result (destroyScriptCmd p id) = none) →
    pruneLoop p d keep entries st
      = (none, { st with executed := st.executed ++
          (entries.filter (prunable keep)).map (destroyScriptCmd p) }) := by
  intro entries
  induction entries with
  | nil => intro st _; simp [pruneLoop]
  | cons id rest ih =>
    intro st h
    by_cases h1 : id = "tmp"
    · subst h1
      rw [pruneLoop, if_pos rfl, ih st (fun q hq hp => h q (by simp [hq]) hp)]
      simp [prunable]
    · by_cases h2 : keep.contains id
      · have h2m : id ∈ keep := by simpa using h2
        rw [pruneLoop, if_neg h1, if_pos h2, ih st (fun q hq hp => h q (by simp [hq]) hp)]
        have hpf : prunable keep id = false := by
          simp [prunable]
          intro _
          exact h2m
        simp [hpf]
      · have hp : prunable keep id = true := by
          simp [prunable, h1]
          simpa using h2
        have hd := h id (by simp) hp
        rw [pruneLoop, if_neg h1, if_neg h2]
        simp only [LinuxContainerPool.destroyScript, runCmd, hd]
        rw [ih _ (fun q hq hqp => h q (by simp [hq]) hqp)]
        simp [hp]

/-- The first `destroy.sh` failure stops the prune loop: entries after it
are not touched, and its error is returned. -/
theorem pruneLoop_first_fail (p : LinuxContainerPool) (d : Deps) (keep : List String)
    (bad : String) (post : List String) (e : String)
    (hbadp : prunable keep bad = true)
    (hbad : d.runner.result (destroyScriptCmd p bad) = some e) :
    ∀ (pre : List String) (st : WState),
    (∀ id ∈ pre, prunable keep id = true →
      d.runner.result (destroyScriptCmd p id) = none) →
    pruneLoop p d keep (pre ++ bad :: post) st
      = (some e, { st with executed := st.executed ++
          (pre.filter (prunable keep)).map (destroyScriptCmd p) ++ [destroyScriptCmd p bad] }) := by
  have hb1 : ¬(bad = "tmp") := by
    intro hh; rw [hh] at hbadp; simp [prunable] at hbadp
  have hb2 : ¬(keep.contains bad = true) := by
    intro hh
    simp [prunable] at hbadp
    exact absurd (by simpa using hh) hbadp.2
  intro pre
  induction pre with
  | nil =>
    intro st _
    rw [List.nil_append, pruneLoop, if_neg hb1, if_neg hb2]
    simp only [LinuxContainerPool.destroyScript, runCmd, hbad]
    simp
  | cons id rest ih =>
    intro st h
    by_cases h1 : id = "tmp"
    · subst h1
      rw [List.cons_append, pruneLoop, if_pos rfl,
        ih st (fun q hq hp => h q (by simp [hq]) hp)]
      simp [prunable]
    · by_cases h2 : keep.contains id
      · have h2m : id ∈ keep := by simpa using h2
        rw [List.cons_append, pruneLoop, if_neg h1, if_pos h2,
          ih st (fun q hq hp => h q (by simp [hq]) hp)]
        have hpf : prunable keep id = false := by
          simp [prunable]
          intro _
          exact h2m
        simp [hpf]
      · have hp : prunable keep id = true := by
          simp [prunable, h1]
          simpa using h2
        have hd := h id (by simp) hp
        rw [List.cons_append, pruneLoop, if_neg h1, if_neg h2]
        simp only [LinuxContainerPool.destroyScript, runCmd, hd]
        rw [ih _ (fun q hq hqp => h q (by simp [hq]) hqp)]
        simp [hp]

/-- Deleting a handle from the registry makes lookups of that handle
fail. -/
theorem find_filter_ne (l : List (String × LinuxContainer)) (h : String) :
    (l.filter fun r => !(r.1 == h)).find? (fun r => r.1 == h) = none := by
  induction l with
  | nil => simp
  | cons q rest ih =>
    by_cases hq : q.1 = h
    · simp [List.filter_cons, hq, ih]
    · have hf : (q.1 == h) = false := by simp [hq]
      simp [List.filter_cons, hf, List.find?_cons, ih]

/-- Character-level escaping is the identity on quote-free character
lists. -/
theorem escape_flatMap_id : ∀ (l : List Char), (∀ ch ∈ l, ch ≠ '"') →
    (l.flatMap fun ch => if ch = '"' then ['\\', '"'] else [ch]) = l := by
  intro l
  induction l with
  | nil => intro _; simp
  | cons ch rest ih =>
    intro h
    have hch : ch ≠ '"' := h ch (by simp)
    simp [hch, ih (fun q hq => h q (by simp [hq]))]

/-- Escaping leaves a quote-free value unchanged. -/
theorem escapeEnvValue_no_quote (v : String) (h : ∀ ch ∈ v.data, ch ≠ '"') :
    escapeEnvValue v = v := by
  apply String.ext
  simpa [escapeEnvValue] using escape_flatMap_id v.data h

/-- Escaping distributes over string append. -/
theorem escapeEnvValue_append (a b : String) :
    escapeEnvValue (a ++ b) = escapeEnvValue a ++ escapeEnvValue b := by
  apply String.ext
  simp [escapeEnvValue, String.data_append]

/-- Joining a one-element list of strings gives that string. -/
theorem join_singleton (s : String) : String.join [s] = s := by
  apply String.ext
  simp [String.join, String.data_append]

/-- Fixtures mirroring the test suite's concrete configuration. -/
def sampleNetwork : Network := ⟨"1.2.0.0/30", "1.2.0.1", "1.2.0.2"⟩

def samplePool : LinuxContainerPool :=
  { binPath := "/root/path", depotPath := "/depot/path", rootFSPath := "/rootfs/path" }

def allOkDeps : Deps :=
  { uidPool := ⟨.ok 10000, fun _ => none⟩
    networkPool := ⟨.ok sampleNetwork, fun _ => none⟩
    portPool := ⟨fun n => .ok (1000 + n), fun _ => none⟩
    runner := ⟨fun _ => none⟩
    cgroups := ⟨fun _ _ _ _ => none⟩ }

def netAcquireFailDeps : Deps :=
  { allOkDeps with networkPool := ⟨.error "oh no!", fun _ => none⟩ }

def createFailDeps : Deps :=
  { allOkDeps with
    runner := ⟨fun cmd => if cmd.path = "/root/path/create.sh" then some "oh no!" else none⟩ }

def destroyFailDeps : Deps :=
  { allOkDeps with
    runner := ⟨fun cmd => if cmd.path = "/root/path/destroy.sh" then some "oh no!" else none⟩ }

def sampleContainer : LinuxContainer :=
  NewLinuxContainer "some-id" "some-handle" "/depot/path/some-id"
    [("property-name", "property-value")] 1 ⟨10000, sampleNetwork, [123, 456]⟩

/-- C1: `ContainerPool.Create` is failure-atomic over resource
acquisition: when acquiring the network fails, the already-acquired UID
is released and the error returned; when `create.sh` fails, both the UID
and the network are released and the error returned. -/
theorem Create_failure_atomic (p : LinuxContainerPool) (d : Deps) (id : String)
    (spec : ContainerSpec) (st : WState) (uid : Nat) (e : String)
    (huid : d.uidPool.acquireResult = .ok uid) :
    (d.networkPool.acquireResult = .error e →
      p.Create d id spec st = (.error e, st.releaseUID uid)) ∧
    (∀ network, d.networkPool.acquireResult = .ok network →
      d.runner.result (createScriptCmd p id uid network) = some e →
      p.Create d id spec st
        = (.error e,
           ({ st with executed := st.executed ++ [createScriptCmd p id uid network]
              : WState }.releaseUID uid).releaseNetwork network)) := by
  constructor
  · intro hnet
    simp [LinuxContainerPool.Create, huid, hnet]
  · intro network hnet hfail
    simp [LinuxContainerPool.Create, huid, hnet, runCmd, hfail]

/-- Witness for C1 at the test suite's configuration: a failing network
pool, and a failing `create.sh`. -/
theorem Create_failure_atomic_witness :
    samplePool.Create netAcquireFailDeps "some-id" {} {}
      = (.error "oh no!", WState.releaseUID {} 10000) ∧
    samplePool.Create createFailDeps "some-id" {} {}
      = (.error "oh no!",
         (({ executed := [createScriptCmd samplePool "some-id" 10000 sampleNetwork] }
            : WState).releaseUID 10000).releaseNetwork sampleNetwork) := by
  constructor
  · exact (Create_failure_atomic samplePool netAcquireFailDeps "some-id" {} {} 10000
      "oh no!" rfl).1 rfl
  · exact (Create_failure_atomic samplePool createFailDeps "some-id" {} {} 10000
      "oh no!" rfl).2 sampleNetwork rfl (by decide)

/-- C3: `ContainerPool.Destroy` invokes `destroy.sh` on the container's
depot path; on success it releases every port, the UID and the network;
on failure it propagates the error and releases nothing. -/
theorem Destroy_releases_resources (p : LinuxContainerPool) (d : Deps)
    (c : LinuxContainer) (st : WState) :
    (d.runner.result (destroyScriptCmd p c.id) = none →
      p.Destroy d c st = (none,
        { st with executed := st.executed ++ [destroyScriptCmd p c.id]
                  portsReleased := st.portsReleased ++ c.resources.ports
                  uidReleased := st.uidReleased ++ [c.resources.uid]
                  networkReleased := st.networkReleased ++ [c.resources.network.subnet] })) ∧
    (∀ e, d.runner.result (destroyScriptCmd p c.id) = some e →
      p.Destroy d c st
        = (some e, { st with executed := st.executed ++ [destroyScriptCmd p c.id] })) := by
  constructor
  · intro hok
    simp [LinuxContainerPool.Destroy, LinuxContainerPool.destroyScript, runCmd, hok,
      releasePorts_eq, WState.releaseUID, WState.releaseNetwork]
  · intro e hfail
    simp [LinuxContainerPool.Destroy, LinuxContainerPool.destroyScript, runCmd, hfail]

/-- Witness for C3: destroying the sample container with a successful
and with a failing `destroy.sh`. -/
theorem Destroy_releases_resources_witness :
    samplePool.Destroy allOkDeps sampleContainer {}
      = (none, { executed := [destroyScriptCmd samplePool "some-id"]
                 portsReleased := [123, 456]
                 uidReleased := [10000]
                 networkReleased := ["1.2.0.0/30"] }) ∧
    samplePool.Destroy destroyFailDeps sampleContainer {}
      = (some "oh no!", { executed := [destroyScriptCmd samplePool "some-id"] }) := by
  constructor
  · exact (Destroy_releases_resources samplePool allOkDeps sampleContainer {}).1 rfl
  · exact (Destroy_releases_resources samplePool destroyFailDeps sampleContainer {}).2
      "oh no!" (by decide)

/-- C4: `ContainerPool.Restore` removes the snapshot's resources in the
order UID, network, then each port; on a UID-removal failure nothing was
removed and the error is returned; on a network-removal failure the
already-removed UID is released; on a port-removal failure the UID, the
network (both previously removed) and every snapshot port are released;
in each case the first removal error is returned. -/
theorem Restore_removal_failure (p : LinuxContainerPool) (d : Deps)
    (snap : ContainerSnapshot) (st : WState) (e : String) :
    (d.uidPool.removeResult snap.resources.uid = some e →
      p.Restore d (.ok snap) st = (.error e, st)) ∧
    (d.uidPool.removeResult snap.resources.uid = none →
      d.networkPool.removeResult snap.resources.network = some e →
      p.Restore d (.ok snap) st
        = (.error e,
           { st with uidRemoved := st.uidRemoved ++ [snap.resources.uid]
                     uidReleased := st.uidReleased ++ [snap.resources.uid] })) ∧
    (∀ pre bad post,
      snap.resources.ports = pre ++ bad :: post →
      d.uidPool.removeResult snap.resources.uid = none →
      d.networkPool.removeResult snap.resources.network = none →
      (∀ q ∈ pre, d.portPool.removeResult q = none) →
      d.portPool.removeResult bad = some e →
      p.Restore d (.ok snap) st
        = (.error e,
           { st with uidRemoved := st.uidRemoved ++ [snap.resources.uid]
                     networkRemoved := st.networkRemoved ++ [snap.resources.network.subnet]
                     portsRemoved := st.portsRemoved ++ pre
                     uidReleased := st.uidReleased ++ [snap.resources.uid]
                     networkReleased := st.networkReleased ++ [snap.resources.network.subnet]
                     portsReleased := st.portsReleased ++ snap.resources.ports })) := by
  refine ⟨?_, ?_, ?_⟩
  · intro huid
    simp [LinuxContainerPool.Restore, huid]
  · intro huid hnet
    simp [LinuxContainerPool.Restore, huid, hnet, WState.removeUID, WState.releaseUID]
  · intro pre bad post hports huid hnet hpre hbad
    rw [LinuxContainerPool.Restore]
    simp only [huid, hnet]
    rw [show st.removeUID snap.resources.uid
        = { st with uidRemoved := st.uidRemoved ++ [snap.resources.uid] } from rfl]
    rw [show ({ st with uidRemoved := st.uidRemoved ++ [snap.resources.uid]
        : WState }).removeNetwork snap.resources.network
      = { st with uidRemoved := st.uidRemoved ++ [snap.resources.uid]
                  networkRemoved := st.networkRemoved ++ [snap.resources.network.subnet] }
        from rfl]
    rw [hports, removePorts_first_fail d pre bad post _ e hpre hbad]
    simp [WState.releaseUID, WState.releaseNetwork, releasePorts_eq, hports]

def uidRemoveFailDeps : Deps :=
  { allOkDeps with uidPool := ⟨.ok 10000, fun _ => some "oh no!"⟩ }

def netRemoveFailDeps : Deps :=
  { allOkDeps with networkPool := ⟨.ok sampleNetwork, fun _ => some "oh no!"⟩ }

def portRemoveFailDeps : Deps :=
  { allOkDeps with
    portPool := ⟨fun n => .ok (1000 + n), fun q => if q = 61002 then some "oh no!" else none⟩ }

def sampleSnapshot : ContainerSnapshot :=
  { id := "some-restored-id"
    handle := "some-restored-handle"
    graceTime := 1
    state := "some-restored-state"
    events := ["some-restored-event", "some-other-restored-event"]
    resources := ⟨10000, sampleNetwork, [61001, 61002, 61003]⟩
    limits := {}
    netIns := []
    netOuts := []
    processes := []
    properties := [("foo", "bar")] }

/-- Witness for C4: restoring the test suite's snapshot against a pool
whose UID, network, or port removal fails. -/
theorem Restore_removal_failure_witness :
    samplePool.Restore uidRemoveFailDeps (.ok sampleSnapshot) {} = (.error "oh no!", {}) ∧
    samplePool.Restore netRemoveFailDeps (.ok sampleSnapshot) {}
      = (.error "oh no!", { uidRemoved := [10000], uidReleased := [10000] }) ∧
    samplePool.Restore portRemoveFailDeps (.ok sampleSnapshot) {}
      = (.error "oh no!",
         { uidRemoved := [10000]
           networkRemoved := ["1.2.0.0/30"]
           portsRemoved := [61001]
           uidReleased := [10000]
           networkReleased := ["1.2.0.0/30"]
           portsReleased := [61001, 61002, 61003] }) := by
  refine ⟨?_, ?_, ?_⟩
  · exact (Restore_removal_failure samplePool uidRemoveFailDeps sampleSnapshot {}
      "oh no!").1 rfl
  · exact (Restore_removal_failure samplePool netRemoveFailDeps sampleSnapshot {}
      "oh no!").2.1 rfl rfl
  · exact (Restore_removal_failure samplePool portRemoveFailDeps sampleSnapshot {}
      "oh no!").2.2 [61001] 61002 [61003] rfl rfl rfl (by decide) (by decide)

/-- C5: `Prune` lists the depot and invokes `destroy.sh` on exactly the
entries that are neither the literal `tmp` nor a key of the keep-set, in
listing order; the first `destroy.sh` failure stops further pruning and
is returned as the error. -/
theorem Prune_destroys_unkept (p : LinuxContainerPool) (d : Deps)
    (entries keep : List String) (st : WState) :
    ((∀ id ∈ entries, prunable keep id = true →
        d.runner.result (destroyScriptCmd p id) = none) →
      p.Prune d (.ok entries) keep st
        = (none, { st with executed := st.executed ++ [lsCmd p] ++
            (entries.filter (prunable keep)).map (destroyScriptCmd p) })) ∧
    (∀ pre bad post e,
      entries = pre ++ bad :: post →
      prunable keep bad = true →
      d.runner.result (destroyScriptCmd p bad) = some e →
      (∀ id ∈ pre, prunable keep id = true →
        d.runner.result (destroyScriptCmd p id) = none) →
      p.Prune d (.ok entries) keep st
        = (some e, { st with executed := st.executed ++ [lsCmd p] ++
            (pre.filter (prunable keep)).map (destroyScriptCmd p)
            ++ [destroyScriptCmd p bad] })) := by
  constructor
  · intro hok
    rw [show p.Prune d (.ok entries) keep st
      = pruneLoop p d keep entries { st with executed := st.executed ++ [lsCmd p] } from rfl]
    rw [pruneLoop_all_ok p d keep entries _ hok]
  · intro pre bad post e hsplit hbadp hbad hpre
    rw [show p.Prune d (.ok entries) keep st
      = pruneLoop p d keep entries { st with executed := st.executed ++ [lsCmd p] } from rfl]
    rw [hsplit, pruneLoop_first_fail p d keep bad post e hbadp hbad pre _ hpre]

def pruneEntries : List String := ["container-1", "container-2", "tmp", "container-3"]

/-- Witness for C5 at the test suite's depot listing: with all destroys
succeeding, and with `destroy.sh` failing on the first prunable entry. -/
theorem Prune_destroys_unkept_witness :
    samplePool.Prune allOkDeps (.ok pruneEntries) ["container-2"] {}
      = (none, { executed := [lsCmd samplePool,
          destroyScriptCmd samplePool "container-1",
          destroyScriptCmd samplePool "container-3"] }) ∧
    samplePool.Prune destroyFailDeps (.ok pruneEntries) ["container-2"] {}
      = (some "oh no!", { executed := [lsCmd samplePool,
          destroyScriptCmd samplePool "container-1"] }) := by
  constructor
  · have h := (Prune_destroys_unkept samplePool allOkDeps pruneEntries
      ["container-2"] {}).1 (fun id _ _ => rfl)
    rw [h]
    decide
  · have h := (Prune_destroys_unkept samplePool destroyFailDeps pruneEntries
      ["container-2"] {}).2 [] "container-1"
      ["container-2", "tmp", "container-3"] "oh no!" rfl (by decide) (by decide)
      (fun id hid => by simp at hid)
    rw [h]
    decide

/-- C6: `LimitMemory` performs exactly three cgroup writes in order —
`memory.limit_in_bytes`, `memory.memsw.limit_in_bytes`,
`memory.limit_in_bytes` again — whatever their outcomes; the call
succeeds whenever the final write succeeds (so a memsw failure is
ignored), and returns the final write's error when it fails. -/
theorem LimitMemory_write_sequence (d : Deps) (c : LinuxContainer) (m : MemoryLimits)
    (st : WState) (hoom : d.runner.result (oomCmd c) = none) :
    ((LinuxContainer.LimitMemory d c m st).2.cgroupWrites
      = st.cgroupWrites ++
        [("memory", "memory.limit_in_bytes", toString m.limitInBytes),
         ("memory", "memory.memsw.limit_in_bytes", toString m.limitInBytes),
         ("memory", "memory.limit_in_bytes", toString m.limitInBytes)]) ∧
    (d.cgroups.setResult
        (st.cgroupWrites ++
          [("memory", "memory.limit_in_bytes", toString m.limitInBytes),
           ("memory", "memory.memsw.limit_in_bytes", toString m.limitInBytes)])
        "memory" "memory.limit_in_bytes" (toString m.limitInBytes) = none →
      ∃ c', (LinuxContainer.LimitMemory d c m st).1 = .ok c' ∧
        c'.limits.memory = some m) ∧
    (∀ e, d.cgroups.setResult
        (st.cgroupWrites ++
          [("memory", "memory.limit_in_bytes", toString m.limitInBytes),
           ("memory", "memory.memsw.limit_in_bytes", toString m.limitInBytes)])
        "memory" "memory.limit_in_bytes" (toString m.limitInBytes) = some e →
      (LinuxContainer.LimitMemory d c m st).1 = .error e) := by
  cases hrunning : c.oomNotifierRunning
  all_goals refine ⟨?_, ?_, ?_⟩
  · cases hres : d.cgroups.setResult
      (st.cgroupWrites ++
        [("memory", "memory.limit_in_bytes", toString m.limitInBytes),
         ("memory", "memory.memsw.limit_in_bytes", toString m.limitInBytes)])
      "memory" "memory.limit_in_bytes" (toString m.limitInBytes) <;>
      simp [LinuxContainer.LimitMemory, startOomNotifier, hrunning, hoom, cgroupSet, hres]
  · intro hset
    simp [LinuxContainer.LimitMemory, startOomNotifier, hrunning, hoom, cgroupSet, hset]
  · intro e hset
    simp [LinuxContainer.LimitMemory, startOomNotifier, hrunning, hoom, cgroupSet, hset]
  · cases hres : d.cgroups.setResult
      (st.cgroupWrites ++
        [("memory", "memory.limit_in_bytes", toString m.limitInBytes),
         ("memory", "memory.memsw.limit_in_bytes", toString m.limitInBytes)])
      "memory" "memory.limit_in_bytes" (toString m.limitInBytes) <;>
      simp [LinuxContainer.LimitMemory, startOomNotifier, hrunning, hoom, cgroupSet, hres]
  · intro hset
    simp [LinuxContainer.LimitMemory, startOomNotifier, hrunning, hoom, cgroupSet, hset]
  · intro e hset
    simp [LinuxContainer.LimitMemory, startOomNotifier, hrunning, hoom, cgroupSet, hset]

def memswFailDeps : Deps :=
  { allOkDeps with cgroups :=
      ⟨fun _ _ n _ => if n = "memory.memsw.limit_in_bytes" then some "oh no!" else none⟩ }

def secondMemFailDeps : Deps :=
  { allOkDeps with cgroups :=
      ⟨fun t _ n _ => if n = "memory.limit_in_bytes" ∧ t.length = 2
        then some "oh no!" else none⟩ }

/-- Witness for C6: the three-write trace, success despite a failing
memsw write, and failure when the second `memory.limit_in_bytes` write
fails. -/
theorem LimitMemory_write_sequence_witness :
    ((sampleContainer.LimitMemory memswFailDeps ⟨102400⟩ {}).2.cgroupWrites
      = [("memory", "memory.limit_in_bytes", "102400"),
         ("memory", "memory.memsw.limit_in_bytes", "102400"),
         ("memory", "memory.limit_in_bytes", "102400")]) ∧
    (∃ c', (sampleContainer.LimitMemory memswFailDeps ⟨102400⟩ {}).1 = .ok c' ∧
      c'.limits.memory = some ⟨102400⟩) ∧
    (sampleContainer.LimitMemory secondMemFailDeps ⟨102400⟩ {}).1 = .error "oh no!" := by
  refine ⟨?_, ?_, ?_⟩
  · exact (LimitMemory_write_sequence memswFailDeps sampleContainer ⟨102400⟩ {} rfl).1
  · exact (LimitMemory_write_sequence memswFailDeps sampleContainer ⟨102400⟩ {}
      rfl).2.1 (by decide)
  · exact (LimitMemory_write_sequence secondMemFailDeps sampleContainer ⟨102400⟩ {}
      rfl).2.2 "oh no!" (by decide)

/-- C7 (counterexample): at the test suite's input, the script handed to
the supervisor escapes the embedded double quote as a backslash-quote —
it is not the claim's unescaped pass-through. -/
theorem Run_script_env_escaping_counterexample :
    buildRunScript [⟨"ESCAPED", "kurt \"russell\""⟩] "/some/script"
      = "export ESCAPED=\"kurt \\\"russell\\\"\"\n/some/script" ∧
    buildRunScriptClaim [⟨"ESCAPED", "kurt \"russell\""⟩] "/some/script"
      = "export ESCAPED=\"kurt \"russell\"\"\n/some/script" ∧
    buildRunScript [⟨"ESCAPED", "kurt \"russell\""⟩] "/some/script"
      ≠ buildRunScriptClaim [⟨"ESCAPED", "kurt \"russell\""⟩] "/some/script" := by
  refine ⟨by decide, by decide, by decide⟩

/-- C7 (amended): each environment variable is emitted as a POSIX
`export K="V"` line in which characters other than the double quote —
dollar signs and newlines included — pass through unchanged, while each
embedded double quote is escaped as backslash-quote; the user script
follows the export lines. -/
theorem Run_script_env_escaping (k a b script : String)
    (ha : ∀ ch ∈ a.data, ch ≠ '"') (hb : ∀ ch ∈ b.data, ch ≠ '"') :
    buildRunScript [⟨k, a⟩] script
      = "export " ++ k ++ "=\"" ++ a ++ "\"\n" ++ script ∧
    buildRunScript [⟨k, a ++ "\"" ++ b⟩] script
      = "export " ++ k ++ "=\"" ++ a ++ "\\\"" ++ b ++ "\"\n" ++ script := by
  have hq : escapeEnvValue "\"" = "\\\"" := by decide
  constructor
  · rw [buildRunScript, List.map_cons, List.map_nil, join_singleton, exportEnvLine,
      escapeEnvValue_no_quote a ha]
  · rw [buildRunScript, List.map_cons, List.map_nil, join_singleton, exportEnvLine,
      escapeEnvValue_append, escapeEnvValue_append, hq,
      escapeEnvValue_no_quote a ha, escapeEnvValue_no_quote b hb]
    simp [String.append_assoc]

/-- Witness for C7 (amended) at the test suite's style of values: the
dollar-interpolated value passes through unchanged, and a value with an
embedded double quote gains exactly the backslash escape. -/
theorem Run_script_env_escaping_witness :
    buildRunScript [⟨"INTERPOLATED", "snake $PLISSKEN"⟩] "/some/script"
      = "export INTERPOLATED=\"snake $PLISSKEN\"\n/some/script" ∧
    buildRunScript [⟨"ESCAPED", "kurt " ++ "\"" ++ "russell"⟩] "/some/script"
      = "export ESCAPED=\"kurt \\\"russell\"\n/some/script" := by
  constructor
  · have h := (Run_script_env_escaping "INTERPOLATED" "snake $PLISSKEN" "x"
      "/some/script" (by decide) (by decide)).1
    rw [h]
    decide
  · have h := (Run_script_env_escaping "ESCAPED" "kurt " "russell"
      "/some/script" (by decide) (by decide)).2
    rw [h]
    decide

def sampleBackend : LinuxBackend := ⟨[("some-handle", sampleContainer)]⟩

/-- C8 (counterexample): destroying a registered handle at a concrete
backend shows the pool destroy happening first and the registry removal
second — the registry removal does not precede the pool destroy as the
claim states. -/
theorem Backend_Destroy_order_counterexample :
    (LinuxBackend.Destroy none sampleBackend "some-handle").2.2
      = [.poolDestroy "some-id", .unregister "some-handle"] ∧
    occursBefore (.unregister "some-handle") (.poolDestroy "some-id")
      (LinuxBackend.Destroy none sampleBackend "some-handle").2.2 = false := by
  exact ⟨by decide, by decide⟩

/-- C8 (amended): `Backend.Destroy` of a registered handle invokes
`ContainerPool.Destroy` first and removes the container from the handle
registry only after the pool destroy succeeds; `Destroy` of an unknown
handle fails with `UnknownHandle` and invokes no pool operation. -/
theorem Backend_Destroy_order (pr : Option String) (b : LinuxBackend) (handle : String) :
    (b.containers.find? (fun q => q.1 == handle) = none →
      LinuxBackend.Destroy pr b handle
        = (.error ("unknown handle: " ++ handle), b, [])) ∧
    (∀ k c, b.containers.find? (fun q => q.1 == handle) = some (k, c) →
      (LinuxBackend.Destroy pr b handle).2.2.head? = some (.poolDestroy c.id) ∧
      (pr = none →
        LinuxBackend.Destroy pr b handle
          = (.ok (), ⟨b.containers.filter fun r => !(r.1 == c.handle)⟩,
             [.poolDestroy c.id, .unregister c.handle]) ∧
        LinuxBackend.Lookup ⟨b.containers.filter fun r => !(r.1 == c.handle)⟩ c.handle
          = .error ("unknown handle: " ++ c.handle))) := by
  constructor
  · intro hnone
    simp [LinuxBackend.Destroy, hnone]
  · intro k c hfind
    constructor
    · cases pr <;> simp [LinuxBackend.Destroy, hfind]
    · intro hpr
      subst hpr
      refine ⟨by simp [LinuxBackend.Destroy, hfind], ?_⟩
      have hn : (b.containers.filter fun r => !(r.1 == c.handle)).find?
          (fun q => q.1 == c.handle) = none := find_filter_ne b.containers c.handle
      simp only [LinuxBackend.Lookup, hn]

/-- Witness for C8 (amended): the unknown-handle case and the successful
destroy of the sample backend's registered handle. -/
theorem Backend_Destroy_order_witness :
    LinuxBackend.Destroy none sampleBackend "bogus"
      = (.error "unknown handle: bogus", sampleBackend, []) ∧
    (LinuxBackend.Destroy none sampleBackend "some-handle").2.2.head?
      = some (.poolDestroy "some-id") ∧
    LinuxBackend.Destroy none sampleBackend "some-handle"
      = (.ok (), ⟨[]⟩, [.poolDestroy "some-id", .unregister "some-handle"]) := by
  refine ⟨?_, ?_, ?_⟩
  · exact (Backend_Destroy_order none sampleBackend "bogus").1 (by decide)
  · exact ((Backend_Destroy_order none sampleBackend "some-handle").2
      "some-handle" sampleContainer (by decide)).1
  · have h := (((Backend_Destroy_order none sampleBackend "some-handle").2
      "some-handle" sampleContainer (by decide)).2 rfl).1
    rw [h]
    decide

/-- C9: when `ContainerPool.Destroy` fails, `Backend.Destroy` returns
that error and the handle stays registered, so a subsequent `Lookup`
still returns the container. -/
theorem Backend_Destroy_error_keeps_handle (b : LinuxBackend) (handle k : String)
    (c : LinuxContainer) (e : String)
    (hfind : b.containers.find? (fun q => q.1 == handle) = some (k, c)) :
    LinuxBackend.Destroy (some e) b handle = (.error e, b, [.poolDestroy c.id]) ∧
    (LinuxBackend.Destroy (some e) b handle).2.1.Lookup handle = .ok c := by
  constructor
  · simp [LinuxBackend.Destroy, hfind]
  · simp [LinuxBackend.Destroy, LinuxBackend.Lookup, hfind]

/-- Witness for C9: a failing pool destroy at the sample backend. -/
theorem Backend_Destroy_error_keeps_handle_witness :
    LinuxBackend.Destroy (some "oh no!") sampleBackend "some-handle"
      = (.error "oh no!", sampleBackend, [.poolDestroy "some-id"]) ∧
    (LinuxBackend.Destroy (some "oh no!") sampleBackend "some-handle").2.1.Lookup
      "some-handle" = .ok sampleContainer := by
  exact Backend_Destroy_error_keeps_handle sampleBackend "some-handle" "some-handle"
    sampleContainer "oh no!" (by decide)

/-- C10: when a container's `Start` fails during `Backend.Create`, the
error is returned, the container is never registered (looking up its
handle still fails with `UnknownHandle`), and no pool destroy is
invoked. -/
theorem Backend_Create_start_failure (b : LinuxBackend) (c : LinuxContainer) (e : String)
    (hfresh : b.containers.find? (fun q => q.1 == c.handle) = none) :
    LinuxBackend.Create (.ok c) (some e) b
      = (.error e, b, [.poolCreate, .containerStart c.id]) ∧
    (LinuxBackend.Create (.ok c) (some e) b).2.1.Lookup c.handle
      = .error ("unknown handle: " ++ c.handle) ∧
    (∀ id, BackendEvent.poolDestroy id ∉ (LinuxBackend.Create (.ok c) (some e) b).2.2) := by
  refine ⟨?_, ?_, ?_⟩
  · simp [LinuxBackend.Create]
  · simp [LinuxBackend.Create, LinuxBackend.Lookup, hfresh]
  · intro id
    simp [LinuxBackend.Create]

/-- Witness for C10: a start failure for a fresh container on an empty
backend. -/
theorem Backend_Create_start_failure_witness :
    LinuxBackend.Create (.ok sampleContainer) (some "oh no!") ⟨[]⟩
      = (.error "oh no!", ⟨[]⟩, [.poolCreate, .containerStart "some-id"]) ∧
    (LinuxBackend.Create (.ok sampleContainer) (some "oh no!") ⟨[]⟩).2.1.Lookup
      "some-handle" = .error "unknown handle: some-handle" ∧
    (∀ id, BackendEvent.poolDestroy id
      ∉ (LinuxBackend.Create (.ok sampleContainer) (some "oh no!") ⟨[]⟩).2.2) := by
  exact Backend_Create_start_failure ⟨[]⟩ sampleContainer "oh no!" rfl

/-- A container-level `Restore` on a fresh container, with all scripts
and cgroup writes succeeding, reproduces the snapshot's observable
fields. -/
theorem RestoreFrom_ok (d : Deps) (c0 : LinuxContainer) (snap : ContainerSnapshot)
    (st : WState)
    (hrun : ∀ cmd, d.runner.result cmd = none)
    (hcg : ∀ t s n v, d.cgroups.setResult t s n v = none)
    (h0ins : c0.netIns = []) (h0outs : c0.netOuts = [])
    (h0oom : c0.oomNotifierRunning = false) (h0mem : c0.limits.memory = none)
    (hins : ∀ r ∈ snap.netIns, r.hostPort ≠ 0 ∧ r.containerPort ≠ 0)
    (houts : ∀ r ∈ snap.netOuts, ¬(r.network = "" ∧ r.port = 0)) :
    ∃ c' st', LinuxContainer.RestoreFrom d c0 snap st = (.ok c', st') ∧
      c'.id = c0.id ∧ c'.handle = c0.handle ∧ c'.graceTime = c0.graceTime ∧
      c'.properties = snap.properties ∧ c'.state = snap.state ∧
      c'.events = snap.events ∧ c'.netIns = snap.netIns ∧
      c'.netOuts = snap.netOuts ∧ c'.resources = c0.resources ∧
      c'.limits.memory = snap.limits.memory := by
  rw [LinuxContainer.RestoreFrom]
  simp only [runCmd, hrun]
  set c1 : LinuxContainer :=
    { c0 with state := snap.state, events := snap.events, properties := snap.properties,
              processIDs := snap.processes,
              processIDCounter := reseedProcessIDCounter snap.processes } with hc1
  obtain ⟨st2, h2⟩ := netInLoop_ok d hrun snap.netIns c1
    { st with executed := st.executed ++ [netSetupCmd c1.containerPath] } hins
  rw [h2]
  dsimp only
  obtain ⟨st3, h3⟩ := netOutLoop_ok d hrun snap.netOuts
    { c1 with netIns := c1.netIns ++ snap.netIns } st2 houts
  rw [h3]
  dsimp only
  cases hm : snap.limits.memory with
  | none =>
    dsimp only
    refine ⟨_, st3, rfl, ?_⟩
    simp [h0ins, h0outs, h0mem]
  | some m =>
    dsimp only
    obtain ⟨st4, h4⟩ := LimitMemory_ok d
      { id := c0.id, handle := c0.handle, containerPath := c0.containerPath,
        cgroupsRoot := c0.cgroupsRoot, properties := snap.properties,
        graceTime := c0.graceTime, state := snap.state, events := snap.events,
        resources := c0.resources, limits := c0.limits,
        netIns := c0.netIns ++ snap.netIns, netOuts := c0.netOuts ++ snap.netOuts,
        processIDs := snap.processes,
        processIDCounter := reseedProcessIDCounter snap.processes,
        oomNotifierRunning := c0.oomNotifierRunning }
      m st3 (by simpa using h0oom) hrun hcg
    rw [h4]
    dsimp only
    refine ⟨_, st4, rfl, ?_⟩
    simp [h0ins, h0outs]

/-- C2: decoding the snapshot produced by a container's `Snapshot` and
restoring it through `ContainerPool.Restore` (with resource removals,
scripts and cgroup writes succeeding) yields a container whose
externally observable fields — id, handle, grace time, state, events,
properties, net-ins, net-outs, memory limit, and the resource triple —
equal the original's. -/
theorem Snapshot_Restore_roundtrip (p : LinuxContainerPool) (d : Deps)
    (c : LinuxContainer) (st : WState)
    (hrun : ∀ cmd, d.runner.result cmd = none)
    (hcg : ∀ t s n v, d.cgroups.setResult t s n v = none)
    (huid : d.uidPool.removeResult c.resources.uid = none)
    (hnet : d.networkPool.removeResult c.resources.network = none)
    (hports : ∀ q ∈ c.resources.ports, d.portPool.removeResult q = none)
    (hins : ∀ r ∈ c.netIns, r.hostPort ≠ 0 ∧ r.containerPort ≠ 0)
    (houts : ∀ r ∈ c.netOuts, ¬(r.network = "" ∧ r.port = 0)) :
    ∃ c' st', p.Restore d (.ok c.Snapshot) st = (.ok c', st') ∧
      c'.id = c.id ∧ c'.handle = c.handle ∧ c'.graceTime = c.graceTime ∧
      c'.state = c.state ∧ c'.events = c.events ∧ c'.properties = c.properties ∧
      c'.netIns = c.netIns ∧ c'.netOuts = c.netOuts ∧
      c'.limits.memory = c.limits.memory ∧
      c'.resources.uid = c.resources.uid ∧
      c'.resources.network = c.resources.network ∧
      c'.resources.ports = c.resources.ports := by
  have huid' : d.uidPool.removeResult c.Snapshot.resources.uid = none := huid
  have hnet' : d.networkPool.removeResult c.Snapshot.resources.network = none := hnet
  have hports' : ∀ q ∈ c.Snapshot.resources.ports, d.portPool.removeResult q = none :=
    hports
  have hins' : ∀ r ∈ c.Snapshot.netIns, r.hostPort ≠ 0 ∧ r.containerPort ≠ 0 := hins
  have houts' : ∀ r ∈ c.Snapshot.netOuts, ¬(r.network = "" ∧ r.port = 0) := houts
  rw [LinuxContainerPool.Restore]
  simp only [huid', hnet']
  rw [removePorts_all_ok d c.Snapshot.resources.ports _ hports']
  dsimp only
  obtain ⟨c', st', heq, h1, h2, h3, h4, h5, h6, h7, h8, h9, h10⟩ := RestoreFrom_ok d
    (NewLinuxContainer c.Snapshot.id c.Snapshot.handle
      (pathJoin p.depotPath c.Snapshot.id) c.Snapshot.properties c.Snapshot.graceTime
      ⟨c.Snapshot.resources.uid, c.Snapshot.resources.network, c.Snapshot.resources.ports⟩)
    c.Snapshot
    ({ (st.removeUID c.Snapshot.resources.uid).removeNetwork c.Snapshot.resources.network with
       portsRemoved :=
         ((st.removeUID c.Snapshot.resources.uid).removeNetwork
           c.Snapshot.resources.network).portsRemoved ++ c.Snapshot.resources.ports })
    hrun hcg rfl rfl rfl rfl hins' houts'
  rw [heq]
  refine ⟨c', st', rfl, h1, h2, h3, h5, h6, h4, h7, h8, h10, ?_, ?_, ?_⟩
  · exact congrArg Resources.uid h9
  · exact congrArg Resources.network h9
  · exact congrArg Resources.ports h9

def roundtripContainer : LinuxContainer :=
  { id := "some-id"
    handle := "some-handle"
    containerPath := "/depot/path/some-id"
    cgroupsRoot := "/tmp/warden/cgroup"
    properties := [("property-name", "property-value")]
    graceTime := 1
    state := "stopped"
    events := ["out of memory"]
    resources := ⟨10000, sampleNetwork, [1000, 1001]⟩
    limits := { memory := some ⟨1024⟩ }
    netIns := [⟨1, 2⟩, ⟨3, 4⟩]
    netOuts := [⟨"network-a", 1⟩, ⟨"network-b", 2⟩]
    processIDs := [0]
    processIDCounter := 1
    oomNotifierRunning := true }

/-- Witness for C2: the round trip of a concrete snapshotted container
through the pool's `Restore` with all collaborators succeeding. -/
theorem Snapshot_Restore_roundtrip_witness :
    ∃ c' st',
      samplePool.Restore allOkDeps (.ok roundtripContainer.Snapshot) {} = (.ok c', st') ∧
      c'.id = roundtripContainer.id ∧ c'.handle = roundtripContainer.handle ∧
      c'.graceTime = roundtripContainer.graceTime ∧
      c'.state = roundtripContainer.state ∧ c'.events = roundtripContainer.events ∧
      c'.properties = roundtripContainer.properties ∧
      c'.netIns = roundtripContainer.netIns ∧
      c'.netOuts = roundtripContainer.netOuts ∧
      c'.limits.memory = roundtripContainer.limits.memory ∧
      c'.resources.uid = roundtripContainer.resources.uid ∧
      c'.resources.network = roundtripContainer.resources.network ∧
      c'.resources.ports = roundtripContainer.resources.ports := by
  exact Snapshot_Restore_roundtrip samplePool allOkDeps roundtripContainer {}
    (fun _ => rfl) (fun _ _ _ _ => rfl) rfl rfl (by decide) (by decide) (by decide)
